import Mathlib

/-!
Verification of the authentication/authorization core of the waiedu
backend (Flask + PyJWT + bcrypt), shallowly embedded in Lean 4.

Embedded source files:
* `app/utils.py` — `hash_password`, `verify_password`, module attribute table;
* `app/services/jwt_service.py` — `generate_jwt`, `decode_jwt`;
* `app/routes/main_student.py` — `authenticate_request`;
* `app/routes/main_user.py` — `owner_required`;
* `app/routes/course.py` — `role_required`;
* `app/routes/main_auth.py` — `login`.

Python dictionaries are modelled as insertion-ordered association lists,
mutation as explicit state passing, exceptions as `Except`/`Option`
results, and the external bcrypt and HMAC primitives are parametrised by
their digest/MAC functions (the claims hold for every choice).
-/

namespace WaiEdu

/-- JSON-style claim values carried in JWT payloads and request bodies. -/
inductive JValue where
  | jNull
  | jBool (b : Bool)
  | jInt (n : Int)
  | jStr (s : String)
  deriving DecidableEq

/-- A Python `dict` with string keys, as an insertion-ordered association list. -/
abbrev Jdict := List (String × JValue)

/-- Python `d.get(k)`: the value at the first matching key, `None` (`jNull`) if absent. -/
def dictGet : Jdict → String → JValue
  | [], _ => .jNull
  | (k', v) :: t, k => if k' = k then v else dictGet t k

/-- Python `d[k] = v`: overwrite the first occurrence of `k` in place, else append. -/
def dictSet : Jdict → String → JValue → Jdict
  | [], k, v => [(k, v)]
  | (k', v') :: t, k, v => if k' = k then (k, v) :: t else (k', v') :: dictSet t k v

/-- Python truthiness of a `JValue` (`None`, `0`, `""`, `False` are falsy). -/
def pyTruthy : JValue → Bool
  | .jNull => false
  | .jBool b => b
  | .jInt n => n ≠ 0
  | .jStr s => s ≠ ""

theorem dictGet_dictSet_same (d : Jdict) (k : String) (v : JValue) :
    dictGet (dictSet d k v) k = v := by
  induction d with
  | nil => simp [dictSet, dictGet]
  | cons hd t ih =>
    obtain ⟨k', v'⟩ := hd
    by_cases h : k' = k <;> simp [dictSet, dictGet, h, ih]

theorem dictGet_cons_same (t : Jdict) (k : String) (v : JValue) :
    dictGet ((k, v) :: t) k = v := by
  simp [dictGet]

theorem dictGet_dictSet_ne (d : Jdict) (k k' : String) (v : JValue) (h : k' ≠ k) :
    dictGet (dictSet d k v) k' = dictGet d k' := by
  induction d with
  | nil => simp [dictSet, dictGet, Ne.symm h]
  | cons hd t ih =>
    obtain ⟨k₀, v₀⟩ := hd
    by_cases h₀ : k₀ = k
    · subst h₀
      simp [dictSet, dictGet, Ne.symm h]
    · by_cases h₁ : k₀ = k' <;> simp [dictSet, dictGet, h, h₀, h₁, ih]

/-!
## The bcrypt collaborator (`import bcrypt`)

Modelled from the library's documented behaviour: a stored hash is one
string `$2b$<cost>$<22-char salt><digest>`; `hashpw` recomputes the
digest from the password and the salt; `checkpw` parses the stored hash
and raises `ValueError("Invalid salt")` when it does not parse.  The
Blowfish key-derivation itself is irrelevant to every claim, so it is a
parameter `digestFn : String → List Char → List Char` (password and salt
to digest) and all theorems hold for every choice of it.
-/

/-- Split a character list at its first `$`, returning the parts before and after. -/
def splitAtDollar : List Char → Option (List Char × List Char)
  | [] => none
  | c :: t =>
    if c = '$' then some ([], t)
    else (splitAtDollar t).map (fun p => (c :: p.1, p.2))

/-- Assemble a bcrypt modular-crypt string `$2b$cost$salt‖digest`. -/
def bcryptBuild (cost : String) (salt digest : List Char) : String :=
  ⟨'$' :: '2' :: 'b' :: '$' :: (cost.toList ++ '$' :: (salt ++ digest))⟩

/-- Parse a stored bcrypt hash into cost, the 22-character salt, and the digest;
`none` models bcrypt raising `ValueError("Invalid salt")`. -/
def bcryptParse (h : String) : Option (String × List Char × List Char) :=
  match h.toList with
  | '$' :: '2' :: 'b' :: '$' :: rest =>
    match splitAtDollar rest with
    | none => none
    | some (cost, rest2) =>
      if rest2.length < 22 then none
      else some (⟨cost⟩, rest2.take 22, rest2.drop 22)
  | _ => none

/-- Model of `bcrypt.checkpw(password, hashed)`: parse the stored hash, recompute
the digest over the embedded salt, compare; a hash that does not parse raises
(`Except.error`), exactly as the C library surfaces `Invalid salt`. -/
def bcryptCheckpw (digestFn : String → List Char → List Char)
    (password hashed : String) : Except String Bool :=
  match bcryptParse hashed with
  | none => .error "Invalid salt"
  | some (_, salt, digest) => .ok (digestFn password salt == digest)

/-- Model of `bcrypt.hashpw(password, salt)` at cost factor `cost`. -/
def bcryptHashpw (digestFn : String → List Char → List Char)
    (password : String) (cost : String) (salt : List Char) : String :=
  bcryptBuild cost salt (digestFn password salt)

/-- `app/utils.py::hash_password`: `bcrypt.hashpw(password, bcrypt.gensalt(rounds=10))`;
the fresh random salt drawn by `gensalt` is the explicit `salt` argument. -/
def hash_password (digestFn : String → List Char → List Char)
    (password : String) (salt : List Char) : String :=
  bcryptHashpw digestFn password "10" salt

/-- `app/utils.py::verify_password`: a bare call to `bcrypt.checkpw` with no
exception handling, so a parse failure propagates to the caller. -/
def verify_password (digestFn : String → List Char → List Char)
    (plain hashed : String) : Except String Bool :=
  bcryptCheckpw digestFn plain hashed

theorem splitAtDollar_append (pre rest : List Char) (h : '$' ∉ pre) :
    splitAtDollar (pre ++ '$' :: rest) = some (pre, rest) := by
  induction pre with
  | nil => simp [splitAtDollar]
  | cons c t ih =>
    simp only [List.mem_cons, not_or] at h
    simp [splitAtDollar, Ne.symm h.1, ih h.2]

theorem bcryptParse_build (cost salt digest : List Char) (hc : '$' ∉ cost)
    (hs : salt.length = 22) :
    bcryptParse (bcryptBuild ⟨cost⟩ salt digest) = some (⟨cost⟩, salt, digest) := by
  have hlen : (salt ++ digest).length = 22 + digest.length := by simp [hs]
  have htake : (salt ++ digest).take 22 = salt := List.take_left' hs
  have hdrop : (salt ++ digest).drop 22 = digest := List.drop_left' hs
  simp only [bcryptParse, bcryptBuild, String.toList]
  rw [splitAtDollar_append _ _ hc]
  simp [hlen, htake, hdrop]

/-!
## Token Issuer/Verifier (`app/services/jwt_service.py`)

A token is the pair of its claims payload and an HMAC-SHA256 signature.
The MAC is a parameter `macFn : Jdict → String → Nat` (payload and secret
to signature); every theorem holds for every choice of it.  Time is an
explicit integer UNIX timestamp `now`.  PyJWT raises
`ExpiredSignatureError` when the `exp` claim is not in the future and
`InvalidSignatureError` on a signature mismatch; both surface through
`Except.error` here.
-/

/-- A compact signed token: the claims segment plus the signature over it. -/
structure Token where
  payload : Jdict
  sig : Nat
  deriving DecidableEq

/-- PyJWT verification failures observed by this codebase. -/
inductive JwtError where
  | invalidSignature
  | expired
  deriving DecidableEq

/-- The message PyJWT attaches to each verification failure. -/
def jwtErrMsg : JwtError → String
  | .invalidSignature => "Signature verification failed"
  | .expired => "Signature has expired"

/-- `jwt_service.py::generate_jwt`: sets `payload['exp'] = now + expiry` (an
in-place mutation of the caller's dict, line 15) and signs the result.  The
first component is the caller's payload dict after the call; the second is the
returned token.  `expiry` defaults to 86400 in the source. -/
def generate_jwt (macFn : Jdict → String → Nat) (now : Int)
    (payload : Jdict) (secret : String) (expiry : Int) : Jdict × Token :=
  let p := dictSet payload "exp" (.jInt (now + expiry))
  (p, ⟨p, macFn p secret⟩)

/-- `jwt_service.py::decode_jwt`: `jwt.decode(token, secret, algorithms=["HS256"])` —
verify the signature, then reject when the `exp` claim is not in the future. -/
def decode_jwt (macFn : Jdict → String → Nat) (now : Int)
    (token : Token) (secret : String) : Except JwtError Jdict :=
  if token.sig = macFn token.payload secret then
    match dictGet token.payload "exp" with
    | .jInt e => if e ≤ now then .error .expired else .ok token.payload
    | _ => .ok token.payload
  else .error .invalidSignature

/-!
## Data model and Session Resolver (`app/routes/main_student.py`)
-/

/-- The fields of `app/models/user.py::User` the auth core reads: `id`, `email`,
`password` (the stored bcrypt hash) and `role` (the enum's string value). -/
structure User where
  id : Int
  email : String
  password : String
  role : String
  deriving DecidableEq

/-- Outcome of `authenticate_request`: either a Flask `(jsonify(...), status)`
error tuple — whose `success: 0` body carries the message — or the resolved user. -/
inductive AuthResult where
  | failure (status : Nat) (msg : String)
  | success (u : User)
  deriving DecidableEq

/-- The `Authorization` header of a request: absent, present without the
`Bearer ` scheme prefix, or carrying a bearer token. -/
inductive AuthHeader where
  | missing
  | nonBearer (raw : String)
  | bearer (t : Token)
  deriving DecidableEq

/-- `main_student.py::authenticate_request`: reject a missing or non-`Bearer`
header (401), decode the token catching every decode exception as a 401,
reject a missing or falsy `userId` claim (401), then look the user up with
`User.query.get`; an unknown id yields a 404 `User not found` response.
The data store `User.query.get` is the function argument `getUser`. -/
def authenticate_request (macFn : Jdict → String → Nat) (now : Int)
    (secret : String) (getUser : JValue → Option User)
    (header : AuthHeader) : AuthResult :=
  match header with
  | .missing => .failure 401 "Authorization token is missing or invalid"
  | .nonBearer _ => .failure 401 "Authorization token is missing or invalid"
  | .bearer t =>
    match decode_jwt macFn now t secret with
    | .error e => .failure 401 ("Authentication failed: " ++ jwtErrMsg e)
    | .ok payload =>
      if pyTruthy (dictGet payload "userId") then
        match getUser (dictGet payload "userId") with
        | none => .failure 404 "User not found"
        | some u => .success u
      else .failure 401 "Invalid token payload"

/-!
## Authorization gates (`app/routes/main_user.py`, `app/routes/course.py`)

Both decorators first run `auth_result = utils.authenticate_request()` and
forward `auth_result` unchanged when it is an error tuple; the decision logic
after a successful resolution is embedded below as a function of the
resolver's outcome.
-/

/-- Outcome of `owner_required`'s wrapper: a short-circuit error tuple, or the
call `f(current_user, user_id, ...)` into the wrapped handler. -/
inductive OwnerGateResult where
  | halt (status : Nat) (msg : String)
  | handler (current : User) (userId : Int)
  deriving DecidableEq

/-- `main_user.py::owner_required.decorated_function` after the resolver ran:
forward resolver error tuples; reject with a 403 when `current_user.id != user_id`;
otherwise call the handler with the authenticated user. -/
def owner_required (authResult : AuthResult) (user_id : Int) : OwnerGateResult :=
  match authResult with
  | .failure s m => .halt s m
  | .success u =>
    if u.id ≠ user_id then
      .halt 403 "Permission denied. You can only modify your own account."
    else .handler u user_id

/-- Outcome of `role_required`'s wrapper: a short-circuit error tuple, or the
call `f(user, ...)` into the wrapped handler. -/
inductive RoleGateResult where
  | halt (status : Nat) (msg : String)
  | handler (u : User)
  deriving DecidableEq

/-- `course.py::role_required(*roles).decorator.decorated_function` after the
resolver ran: forward resolver error tuples; reject with a 403 when
`user.role.value not in roles`; otherwise call the handler with the user. -/
def role_required (roles : List String) (authResult : AuthResult) : RoleGateResult :=
  match authResult with
  | .failure s m => .halt s m
  | .success u =>
    if u.role ∉ roles then
      .halt 403 "Permission denied. Insufficient role privileges."
    else .handler u

/-!
## The missing `utils.authenticate_request` attribute

`app/utils.py` defines exactly the functions below, and no
`authenticate_request`; Python resolves `utils.authenticate_request` by
module attribute lookup and raises `AttributeError` when the name is not
among the module's definitions.
-/

/-- The top-level functions defined in `app/utils.py`, in source order. -/
def appUtilsDefs : List String :=
  ["get_request_data", "validate_email", "validate_password",
   "hash_password", "verify_password", "serialize_user",
   "success_response", "error_response"]

/-- Python module attribute lookup: `some` when the module defines the name,
`none` for the `AttributeError` fault. -/
def moduleGetattr (defs : List String) (name : String) : Option String :=
  if name ∈ defs then some name else none

/-- Evaluation of the very first statement of both gate wrappers,
`auth_result = utils.authenticate_request()`: the attribute must resolve
before any call or failure recovery happens; `none` is an uncaught
`AttributeError` fault escaping the gate. -/
def gateResolverLookup : Option String :=
  moduleGetattr appUtilsDefs "authenticate_request"

/-!
## Login (`app/routes/main_auth.py::login`)
-/

/-- Outcome of the login route: an error tuple, or a token plus the user data. -/
inductive LoginResult where
  | fail (status : Nat) (msg : String)
  | ok (token : Token) (userId : Int)
  deriving DecidableEq

/-- `main_auth.py::login`: missing email/password give a 400; an email matching
no stored user gives a 401 `Invalid email or password`; a failed password
verification gives the same 401; a `verify_password` exception is caught by the
route's `try` block as a 500; success issues a JWT for the user. -/
def login (digestFn : String → List Char → List Char)
    (macFn : Jdict → String → Nat) (now : Int) (secret : String)
    (store : List User) (email password : String) : LoginResult :=
  if email = "" ∨ password = "" then .fail 400 "Email and password are required"
  else
    match store.find? (fun u => u.email == email) with
    | none => .fail 401 "Invalid email or password"
    | some u =>
      match verify_password digestFn password u.password with
      | .error e => .fail 500 ("Error during authentication: " ++ e)
      | .ok false => .fail 401 "Invalid email or password"
      | .ok true =>
        .ok (generate_jwt macFn now
              [("userId", .jInt u.id), ("email", .jStr u.email)] secret 86400).2 u.id

/-!
## Claim theorems
-/

/-- C1: the claim says every authentication failure kind is recovered at the
gate boundary and converted to a structured failure result, never escaping as
an unhandled fault.  The code's gates instead begin with
`auth_result = utils.authenticate_request()`, and `app/utils.py` defines no
`authenticate_request`, so every invocation of `owner_required` or
`role_required` — including one whose request lacks any credential — raises an
uncaught `AttributeError` before any failure recovery can run. -/
theorem gate_resolver_attribute_fault :
    gateResolverLookup = none ∧ "authenticate_request" ∉ appUtilsDefs := by
  constructor
  · rfl
  · decide

/-- C2 counterexample: the claim says `verify_password` never propagates an
exception, but on the malformed stored hash `""` the bare `bcrypt.checkpw`
call raises `ValueError("Invalid salt")`, which escapes `verify_password`. -/
theorem verify_password_raises_on_malformed_hash :
    verify_password (fun p _ => p.toList) "secret" "" = .error "Invalid salt" := rfl

/-- C2 amended: `verify_password` returns a boolean exactly when the stored
hash parses as a bcrypt hash; on a malformed stored hash the bcrypt
`Invalid salt` exception propagates out of `verify_password` uncaught. -/
theorem verify_password_boolean_iff_wellformed
    (digestFn : String → List Char → List Char) (plain hashed : String) :
    ((∃ b, verify_password digestFn plain hashed = .ok b) ↔ (bcryptParse hashed).isSome)
    ∧ (verify_password digestFn plain hashed = .error "Invalid salt"
        ↔ bcryptParse hashed = none) := by
  unfold verify_password bcryptCheckpw
  cases h : bcryptParse hashed with
  | none => simp
  | some v =>
    obtain ⟨c, s, d⟩ := v
    simp

/-- C7: verifying a plaintext against the stored hash `hash_password` produced
for it succeeds, for every plaintext, every bcrypt digest function and every
salt of the shape `gensalt` draws (22 characters). -/
theorem verify_password_of_hash_password
    (digestFn : String → List Char → List Char) (p : String) (salt : List Char)
    (hs : salt.length = 22) :
    verify_password digestFn p (hash_password digestFn p salt) = .ok true := by
  have hparse := bcryptParse_build ['1', '0'] salt (digestFn p salt) (by decide) hs
  unfold verify_password bcryptCheckpw hash_password bcryptHashpw
  rw [show ("10" : String) = ⟨['1', '0']⟩ from rfl, hparse]
  simp

/-- C7 witness: a concrete plaintext, digest function and 22-character salt. -/
theorem verify_password_of_hash_password_witness :
    ("abcdefghijklmnopqrstuv".toList.length = 22)
    ∧ verify_password (fun p _ => p.toList) "hunter2pass"
        (hash_password (fun p _ => p.toList) "hunter2pass" "abcdefghijklmnopqrstuv".toList)
      = .ok true :=
  ⟨by decide,
   verify_password_of_hash_password (fun p _ => p.toList) "hunter2pass"
     "abcdefghijklmnopqrstuv".toList (by decide)⟩

/-- C4: decoding the token issued by `generate_jwt` with the same secret,
before its expiry, returns the claims with every field other than `exp`
unchanged and `exp` set to issuance time plus the ttl. -/
theorem decode_generate_round_trip (macFn : Jdict → String → Nat)
    (payload : Jdict) (secret : String) (now expiry now2 : Int)
    (h : now2 < now + expiry) :
    decode_jwt macFn now2 (generate_jwt macFn now payload secret expiry).2 secret
      = .ok (dictSet payload "exp" (.jInt (now + expiry)))
    ∧ ∀ k, k ≠ "exp" →
        dictGet (dictSet payload "exp" (.jInt (now + expiry))) k = dictGet payload k := by
  constructor
  · unfold generate_jwt decode_jwt
    simp [dictGet_dictSet_same, show ¬ now + expiry ≤ now2 by omega]
  · intro k hk
    exact dictGet_dictSet_ne payload "exp" k _ hk

/-- C4 witness: a concrete payload round-trips through issue/decode, and its
`userId` claim is unchanged. -/
theorem decode_generate_round_trip_witness :
    decode_jwt (fun _ _ => 7) 100 (generate_jwt (fun _ _ => 7) 0
        [("userId", JValue.jInt 5)] "s" 86400).2 "s"
      = .ok (dictSet [("userId", JValue.jInt 5)] "exp" (.jInt (0 + 86400)))
    ∧ dictGet (dictSet [("userId", JValue.jInt 5)] "exp" (.jInt (0 + 86400))) "userId"
      = .jInt 5 :=
  ⟨(decode_generate_round_trip (fun _ _ => 7) [("userId", JValue.jInt 5)] "s" 0 86400 100
      (by decide)).1,
   ((decode_generate_round_trip (fun _ _ => 7) [("userId", JValue.jInt 5)] "s" 0 86400 100
      (by decide)).2 "userId" (by decide)).trans rfl⟩

/-- C9: `generate_jwt` mutates the caller's claims dict in place: after the
call it holds `exp = now + ttl` (added, or overwritten in place if present)
and every other entry is unchanged.  The first component of `generate_jwt` is
the caller's dict after the call. -/
theorem generate_jwt_updates_caller_payload (macFn : Jdict → String → Nat)
    (payload : Jdict) (secret : String) (now expiry : Int) :
    dictGet (generate_jwt macFn now payload secret expiry).1 "exp" = .jInt (now + expiry)
    ∧ ∀ k, k ≠ "exp" →
        dictGet (generate_jwt macFn now payload secret expiry).1 k = dictGet payload k := by
  constructor
  · exact dictGet_dictSet_same payload "exp" _
  · intro k hk
    exact dictGet_dictSet_ne payload "exp" k _ hk

/-- C9 witness: a concrete caller's dict after the call holds the new `exp`
and its `userId` entry unchanged, also when an `exp` entry was present. -/
theorem generate_jwt_updates_caller_payload_witness :
    dictGet (generate_jwt (fun _ _ => 0) 10
        [("userId", JValue.jInt 7), ("exp", JValue.jInt 3)] "s" 86400).1 "exp"
      = .jInt (10 + 86400)
    ∧ dictGet (generate_jwt (fun _ _ => 0) 10
        [("userId", JValue.jInt 7), ("exp", JValue.jInt 3)] "s" 86400).1 "userId"
      = dictGet [("userId", JValue.jInt 7), ("exp", JValue.jInt 3)] "userId" :=
  ⟨(generate_jwt_updates_caller_payload (fun _ _ => 0)
      [("userId", JValue.jInt 7), ("exp", JValue.jInt 3)] "s" 10 86400).1,
   (generate_jwt_updates_caller_payload (fun _ _ => 0)
      [("userId", JValue.jInt 7), ("exp", JValue.jInt 3)] "s" 10 86400).2 "userId"
     (by decide)⟩

/-- C10: a token whose decoded claims lack a `userId` entry or carry a falsy
one (such as the integer 0) is rejected with a 401 `Invalid token payload`,
even when the token is validly signed and unexpired, and the result is the
same for every data store — the `User.query.get` lookup is never consulted. -/
theorem authenticate_request_rejects_falsy_userId (macFn : Jdict → String → Nat)
    (now : Int) (secret : String) (getUser getUser2 : JValue → Option User)
    (t : Token) (payload : Jdict)
    (hdec : decode_jwt macFn now t secret = .ok payload)
    (hfalsy : pyTruthy (dictGet payload "userId") = false) :
    authenticate_request macFn now secret getUser (.bearer t)
      = .failure 401 "Invalid token payload"
    ∧ authenticate_request macFn now secret getUser (.bearer t)
      = authenticate_request macFn now secret getUser2 (.bearer t) := by
  simp [authenticate_request, hdec, hfalsy]

/-- C10 witness: a validly signed, unexpired token with `userId = 0` is
rejected with the 401, identically over an empty store and a populated one. -/
theorem authenticate_request_rejects_falsy_userId_witness :
    authenticate_request (fun _ _ => 0) 0 "s" (fun _ => none)
      (.bearer ⟨[("userId", JValue.jInt 0), ("exp", JValue.jInt 100)], 0⟩)
      = .failure 401 "Invalid token payload"
    ∧ authenticate_request (fun _ _ => 0) 0 "s" (fun _ => none)
      (.bearer ⟨[("userId", JValue.jInt 0), ("exp", JValue.jInt 100)], 0⟩)
      = authenticate_request (fun _ _ => 0) 0 "s"
          (fun _ => some ⟨1, "a@b.com", "h", "student"⟩)
          (.bearer ⟨[("userId", JValue.jInt 0), ("exp", JValue.jInt 100)], 0⟩) :=
  authenticate_request_rejects_falsy_userId (fun _ _ => 0) 0 "s" (fun _ => none)
    (fun _ => some ⟨1, "a@b.com", "h", "student"⟩)
    ⟨[("userId", JValue.jInt 0), ("exp", JValue.jInt 100)], 0⟩
    [("userId", JValue.jInt 0), ("exp", JValue.jInt 100)] rfl (by decide)

/-- C3 counterexample: the claim says the unknown-subject failure is a
401-equivalent authentication failure, but on a validly signed, unexpired
token whose subject has no user in the store the resolver returns the 404
`User not found` response, and 404 is not 401. -/
theorem authenticate_unknown_subject_is_404 :
    authenticate_request (fun _ _ => 0) 0 "s" (fun _ => none)
      (.bearer ⟨[("userId", JValue.jInt 1), ("exp", JValue.jInt 100)], 0⟩)
      = .failure 404 "User not found"
    ∧ (404 : Nat) ≠ 401 := by
  constructor
  · rfl
  · decide

/-- C3 amended: for every validly signed, unexpired token with a truthy
subject id that has no corresponding user, the resolver performs the
`User.query.get` lookup and fails with the 404 `User not found` response
(rather than a 401-equivalent authentication failure). -/
theorem authenticate_unknown_subject_returns_404 (macFn : Jdict → String → Nat)
    (now : Int) (secret : String) (getUser : JValue → Option User)
    (t : Token) (payload : Jdict)
    (hdec : decode_jwt macFn now t secret = .ok payload)
    (htruthy : pyTruthy (dictGet payload "userId") = true)
    (hmiss : getUser (dictGet payload "userId") = none) :
    authenticate_request macFn now secret getUser (.bearer t)
      = .failure 404 "User not found" := by
  simp [authenticate_request, hdec, htruthy, hmiss]

/-- C3 amended witness: a concrete valid token for the deleted user id 1. -/
theorem authenticate_unknown_subject_returns_404_witness :
    authenticate_request (fun _ _ => 3) 50 "k" (fun _ => none)
      (.bearer ⟨[("userId", JValue.jInt 1), ("exp", JValue.jInt 100)], 3⟩)
      = .failure 404 "User not found" :=
  authenticate_unknown_subject_returns_404 (fun _ _ => 3) 50 "k" (fun _ => none)
    ⟨[("userId", JValue.jInt 1), ("exp", JValue.jInt 100)], 3⟩
    [("userId", JValue.jInt 1), ("exp", JValue.jInt 100)] rfl (by decide) rfl

/-- C5: after successful authentication `owner_required` calls the handler
exactly when the resolved user's id equals the route's `user_id`, and rejects
with the 403 response otherwise; the decision reads only `u.id`, so no role —
in particular `admin`, which the decorator never consults — bypasses it. -/
theorem owner_required_ownership_only (u : User) (uid : Int) :
    owner_required (.success u) uid
      = (if u.id = uid then .handler u uid
         else .halt 403 "Permission denied. You can only modify your own account.")
    ∧ (u.role = "admin" → u.id ≠ uid →
        owner_required (.success u) uid
          = .halt 403 "Permission denied. You can only modify your own account.") := by
  constructor
  · by_cases h : u.id = uid <;> simp [owner_required, h]
  · intro _ hne
    simp [owner_required, hne]

/-- C5 witness: an admin whose id differs from the route's `user_id` is
rejected with the 403, and the owner is accepted. -/
theorem owner_required_ownership_only_witness :
    owner_required (.success ⟨2, "root@x.com", "h", "admin"⟩) 1
      = .halt 403 "Permission denied. You can only modify your own account."
    ∧ owner_required (.success ⟨1, "me@x.com", "h", "student"⟩) 1
      = (if (1 : Int) = 1 then .handler ⟨1, "me@x.com", "h", "student"⟩ 1
         else .halt 403 "Permission denied. You can only modify your own account.") :=
  ⟨(owner_required_ownership_only ⟨2, "root@x.com", "h", "admin"⟩ 1).2 rfl (by decide),
   (owner_required_ownership_only ⟨1, "me@x.com", "h", "student"⟩ 1).1⟩

/-- C6: after successful resolution `role_required` forwards the user to the
handler exactly when the user's role is among the allowed roles, and on
mismatch halts with the 403 response, whose status differs from the 401 of
authentication failures; in particular `role_required('teacher')` accepts
exactly role `teacher` and rejects role `student`. -/
theorem role_required_membership (roles : List String) (u : User) :
    role_required roles (.success u)
      = (if u.role ∈ roles then .handler u
         else .halt 403 "Permission denied. Insufficient role privileges.")
    ∧ (role_required ["teacher"] (.success u) = .handler u ↔ u.role = "teacher")
    ∧ (u.role = "student" →
        role_required ["teacher"] (.success u)
          = .halt 403 "Permission denied. Insufficient role privileges.")
    ∧ (403 : Nat) ≠ 401 := by
  refine ⟨?_, ?_, ?_, by decide⟩
  · by_cases h : u.role ∈ roles <;> simp [role_required, h]
  · by_cases h : u.role = "teacher" <;> simp [role_required, h]
  · intro h
    simp [role_required, h]

/-- C6 witness: a teacher is forwarded by `role_required('teacher')` and a
student is rejected with the 403. -/
theorem role_required_membership_witness :
    role_required ["teacher"] (.success ⟨1, "t@x.com", "h", "teacher"⟩)
      = .handler ⟨1, "t@x.com", "h", "teacher"⟩
    ∧ role_required ["teacher"] (.success ⟨2, "s@x.com", "h", "student"⟩)
      = .halt 403 "Permission denied. Insufficient role privileges." :=
  ⟨(role_required_membership ["teacher"] ⟨1, "t@x.com", "h", "teacher"⟩).2.1.mpr rfl,
   (role_required_membership ["teacher"] ⟨2, "s@x.com", "h", "student"⟩).2.2.1 rfl⟩

/-- C8: a login whose email matches no stored user and a login whose email
matches a user but whose password fails verification return the same
401 failure with the same `Invalid email or password` message, so the two
causes are indistinguishable to the client. -/
theorem login_indistinguishable_failures
    (digestFn : String → List Char → List Char) (macFn : Jdict → String → Nat)
    (now : Int) (secret : String) (store : List User)
    (e1 p1 e2 p2 : String) (u : User)
    (he1 : e1 ≠ "") (hp1 : p1 ≠ "")
    (hnone : store.find? (fun v => v.email == e1) = none)
    (he2 : e2 ≠ "") (hp2 : p2 ≠ "")
    (hsome : store.find? (fun v => v.email == e2) = some u)
    (hverify : verify_password digestFn p2 u.password = .ok false) :
    login digestFn macFn now secret store e1 p1 = .fail 401 "Invalid email or password"
    ∧ login digestFn macFn now secret store e1 p1
      = login digestFn macFn now secret store e2 p2 := by
  simp [login, he1, hp1, he2, hp2, hnone, hsome, hverify]

/-- C8 witness: a store with one user; an unknown email and that user's email
with a wrong password produce the identical 401 failure. -/
theorem login_indistinguishable_failures_witness :
    login (fun p _ => p.toList) (fun _ _ => 0) 0 "s"
      [⟨1, "a@b.com",
        hash_password (fun p _ => p.toList) "rightpw1" "abcdefghijklmnopqrstuv".toList,
        "student"⟩]
      "x@y.com" "whatever" = .fail 401 "Invalid email or password"
    ∧ login (fun p _ => p.toList) (fun _ _ => 0) 0 "s"
      [⟨1, "a@b.com",
        hash_password (fun p _ => p.toList) "rightpw1" "abcdefghijklmnopqrstuv".toList,
        "student"⟩]
      "x@y.com" "whatever"
      = login (fun p _ => p.toList) (fun _ _ => 0) 0 "s"
        [⟨1, "a@b.com",
          hash_password (fun p _ => p.toList) "rightpw1" "abcdefghijklmnopqrstuv".toList,
          "student"⟩]
        "a@b.com" "wrongpw" :=
  login_indistinguishable_failures (fun p _ => p.toList) (fun _ _ => 0) 0 "s"
    [⟨1, "a@b.com",
      hash_password (fun p _ => p.toList) "rightpw1" "abcdefghijklmnopqrstuv".toList,
      "student"⟩]
    "x@y.com" "whatever" "a@b.com" "wrongpw"
    ⟨1, "a@b.com",
      hash_password (fun p _ => p.toList) "rightpw1" "abcdefghijklmnopqrstuv".toList,
      "student"⟩
    (by decide) (by decide) rfl (by decide) (by decide) rfl rfl

end WaiEdu
